import Mathlib

/-!
Verification development for `visasq_scraper.py`: a shallow embedding of the
scraper's data model and operations (text normalization, keyword matching,
the seen-ids ledger, the sitemap fallback fetch loop, Slack payload
composition and the `main` control flow), together with theorems settling
the specification claims.
-/

deriving instance DecidableEq for Except

/-- Character-level model of `unicodedata.normalize("NFKC", ·)` restricted to
the portion of the NFKC table the program's data exercises: the fullwidth
ASCII block U+FF01–U+FF5E maps to its halfwidth counterpart U+0021–U+007E and
the ideographic space U+3000 maps to the ASCII space; all other characters
are fixed points of the model. -/
def nfkcChar (c : Char) : Char :=
  if 0xFF01 ≤ c.toNat ∧ c.toNat ≤ 0xFF5E then Char.ofNat (c.toNat - 0xFEE0)
  else if c.toNat = 0x3000 then Char.ofNat 0x20
  else c

/-- Character-level model of `str.lower` restricted to ASCII: U+0041–U+005A
maps to U+0061–U+007A; all other characters are fixed points of the model. -/
def lowerChar (c : Char) : Char :=
  if 0x41 ≤ c.toNat ∧ c.toNat ≤ 0x5A then Char.ofNat (c.toNat + 0x20) else c

/-- `normalize_text` (source lines 95–97): NFKC normalization followed by
lower-casing, applied character-wise through the models above. -/
def normalize_text (s : String) : String :=
  ⟨(s.data.map nfkcChar).map lowerChar⟩

/-- Python's `needle in hay` substring test on strings, as contiguous
occurrence of `needle`'s character list inside `hay`'s. -/
def subOccurs (needle : List Char) : List Char → Bool
  | [] => needle.isEmpty
  | c :: t => needle.isPrefixOf (c :: t) || subOccurs needle t

/-- `needle` occurs as a contiguous substring of `hay` (Python `needle in hay`). -/
def strContains (hay needle : String) : Bool :=
  subOccurs needle.data hay.data

/-- `KEYWORDS` (source lines 31–37), the canonical keyword list in its
declaration order. -/
def KEYWORDS : List String :=
  ["SEO", "広告運用", "SNS運用", "ブランディング", "新規事業", "企画",
   "リブランディング", "HPリニューアル", "コンセプトメイキング", "MVV開発",
   "ロゴデザイン", "VI開発", "ブランド戦略", "ブランド開発", "商品開発",
   "イベント", "展示会", "ポップアップ", "PR", "オペレーション",
   "デザイン業務", "経営課題", "ヒアリング", "言語化"]

/-- `TARGET_URL` (source line 25). -/
def TARGET_URL : String := "https://expert.visasq.com/issue/?is_started_only=true"

/-- `BASE_ORIGIN` (source line 26). -/
def BASE_ORIGIN : String := "https://expert.visasq.com"

/-- One discovered posting, the record dictionary built by `extract_items`
(source lines 205–218); sitemap-derived records (lines 310–319) leave the
four listing-only fields at their empty default. -/
structure Item where
  id : String
  url : String
  title : String
  description : String
  labels : List String
  created : String
  due : String
  reward : String
  meeting_time : String := ""
  num_people : String := ""
  location : String := ""
  company_info : String := ""
deriving DecidableEq

/-- An item together with the `matched_keywords` entry that
`filter_new_and_match` attaches to a matched record. -/
structure MatchResult where
  item : Item
  matched_keywords : List String
deriving DecidableEq

/-- Per-item body of the loop in `filter_new_and_match` (source lines
334–346), after the seen-id check: normalize the space-joined title and
description, collect the set of normalized keywords occurring as substrings
(the Python code materializes this set as a sorted list; only its emptiness
and membership are consumed, so the set itself is embedded), and on a
non-empty match set rebuild the display list from the original keywords in
declaration order. -/
def matchItem (keywords : List String) (it : Item) : Option MatchResult :=
  let norm_keywords := keywords.map normalize_text
  let text_for_match := normalize_text (it.title ++ " " ++ it.description)
  let matched : Finset String :=
    (norm_keywords.filter fun k => strContains text_for_match k).toFinset
  if matched.Nonempty then
    some ⟨it, keywords.filter fun orig => normalize_text orig ∈ matched⟩
  else
    none

/-- `filter_new_and_match` (source lines 326–347): drop items whose id is in
the seen set, keep keyword matches. The source reads the module-level
`KEYWORDS`; here the keyword list is the first parameter and `main` passes
`KEYWORDS`. -/
def filter_new_and_match (keywords : List String) (items : List Item)
    (seen_ids : Finset String) : List MatchResult :=
  items.filterMap fun it => if it.id ∈ seen_ids then none else matchItem keywords it

/-- The observable state of the persisted ledger file `state/seen_ids.json`:
absent, present but unreadable (a permission error on opening it), present
with malformed content (invalid JSON, a non-object document, or a
`seen_ids` entry that is not a list — everything `json.load`/`data.get`
would choke on), or present with a well-formed identifier list. -/
inductive FileState where
  | missing
  | unreadable
  | malformed
  | content (ids : List String)
deriving DecidableEq

/-- The slice of the file system the ledger functions touch: whether the
state directory exists, whether creating it would succeed (permissions on
its parent), and the ledger file itself. -/
structure FS where
  dirExists : Bool
  dirCreatable : Bool
  file : FileState
deriving DecidableEq

/-- `STATE_PATH.parent.mkdir(parents=True, exist_ok=True)` (source lines 52
and 64): a no-op when the directory exists, creates it when permitted, and
raises `PermissionError` otherwise. -/
def ensureStateDir (fs : FS) : Except String FS :=
  if fs.dirExists then .ok fs
  else if fs.dirCreatable then .ok { fs with dirExists := true }
  else .error "PermissionError"

/-- `load_seen_ids` (source lines 51–60): ensure the state directory (the
`mkdir` call sits outside the `try` block), then return the parsed id set;
a missing file, or any exception while opening/parsing it, yields the empty
set. Returns the loaded set together with the file system after the
`mkdir` side effect. -/
def load_seen_ids (fs : FS) : Except String (Finset String × FS) :=
  match ensureStateDir fs with
  | .error e => .error e
  | .ok fs1 =>
    match fs1.file with
    | .content ids => .ok (ids.toFinset, fs1)
    | .missing => .ok (∅, fs1)
    | .unreadable => .ok (∅, fs1)
    | .malformed => .ok (∅, fs1)

/-- `save_seen_ids` (source lines 63–66): ensure the state directory, then
rewrite the ledger file with `sorted(seen)`. -/
def save_seen_ids (seen : Finset String) (fs : FS) : Except String FS :=
  match ensureStateDir fs with
  | .error e => .error e
  | .ok fs1 => .ok { fs1 with file := .content (seen.sort (· ≤ ·)) }

/-- One `url` entry of `sitemap_issues.xml` as `fetch_issue_urls_from_sitemap`
returns it (source lines 223–249): the captured issue id, the absolute
`loc` URL, and the `lastmod` string (empty when the element is absent). -/
structure SitemapEntry where
  id : String
  url : String
  lastmod : String
deriving DecidableEq

/-- One `<li>` element of a detail page as the loop at source lines 297–309
reads it: its `qa-content` attribute (empty when absent), its whitespace-
normalized text, the space-joined class list of its first `<i>` descendant
(empty when there is none), and the text of its first `<span>` descendant. -/
structure LiEntry where
  qa : String
  text : String
  iconClasses : String
  spanText : Option String
deriving DecidableEq

/-- The parts of a fetched issue detail page that
`build_items_from_sitemap` consumes (source lines 271–309): the `<title>`
text, the `content` of the `description` / `og:description` meta tags, and
the `<li>` elements. -/
structure DetailPage where
  title : Option String
  metaDescription : Option String
  ogDescription : Option String
  lis : List LiEntry
deriving DecidableEq

/-- The outcome of one `requests.get` call: a response carrying a status
code and a parsed body, or a raised request exception (timeout, connection
error). -/
inductive FetchOutcome where
  | resp (status : Nat) (page : DetailPage)
  | exn (msg : String)
deriving DecidableEq

/-- Whether a fetch outcome is a raised exception. -/
def FetchOutcome.isExn : FetchOutcome → Bool
  | .exn _ => true
  | .resp _ _ => false

/-- Whitespace for the purposes of the regexes at source lines 276 and 308. -/
def isWs (c : Char) : Bool :=
  c = ' ' ∨ c = '\t' ∨ c = '\n'

/-- Does `\s*\|` match at the head of this character list? -/
def spacesThenPipe : List Char → Bool
  | [] => false
  | c :: t => if c = '|' then true else if isWs c then spacesThenPipe t else false

/-- `re.sub(r"\s*\|\s*.*$", "", title)` (source line 276): cut the string at
the leftmost position where optional whitespace is followed by a pipe. -/
def dropSiteSuffix : List Char → List Char
  | [] => []
  | c :: t => if spacesThenPipe (c :: t) then [] else c :: dropSiteSuffix t

/-- Longest boolean-satisfying leading run and the remainder. -/
def spanWhile (p : Char → Bool) : List Char → List Char × List Char
  | [] => ([], [])
  | c :: t =>
    if p c then
      let (a, b) := spanWhile p t
      (c :: a, b)
    else ([], c :: t)

/-- Is a character a digit or a comma (the `[\d,]` class of the reward
regex at source line 308)? -/
def isDigitOrComma (c : Char) : Bool :=
  c.isDigit || c = ','

/-- Try to extend a matched amount with the optional `\s*〜\s*¥[\d,]+` tail
of the reward regex; return the matched characters. -/
def moneyTail (rest : List Char) : List Char :=
  let (sp1, r1) := spanWhile isWs rest
  match r1 with
  | '〜' :: r2 =>
    let (sp2, r3) := spanWhile isWs r2
    (match r3 with
     | '¥' :: r4 =>
       let (ds, _) := spanWhile isDigitOrComma r4
       if ds.isEmpty then [] else sp1 ++ '〜' :: sp2 ++ '¥' :: ds
     | _ => [])
  | _ => []

/-- `re.search(r"¥[\d,]+(?:\s*〜\s*¥[\d,]+)?", txt)` (source line 308):
leftmost match of a yen amount, optionally extended by a range tail. -/
def moneySearch : List Char → Option (List Char)
  | [] => none
  | c :: t =>
    if c = '¥' then
      let (ds, rest) := spanWhile isDigitOrComma t
      if ds.isEmpty then moneySearch t
      else some ('¥' :: ds ++ moneyTail rest)
    else moneySearch t

/-- The running `(created, due, reward)` triple updated by one `<li>` of the
detail page, following the three `if`s at source lines 302–309. -/
def applyLi (st : String × String × String) (li : LiEntry) : String × String × String :=
  let created := if li.qa = "created" then ((li.text.replace "作成日:" "").trim) else st.1
  let due :=
    if li.qa = "due-date" ∨ strContains li.iconClasses "i-mdi-calendar-month" ∨
        strContains li.iconClasses "i-mdi-calendar" then
      (match li.spanText with
       | some s => s
       | none => li.text).trim
    else st.2.1
  let reward :=
    if strContains li.text "¥" ∨ strContains li.iconClasses "i-mdi-tag" then
      (match moneySearch li.text.data with
       | some m => String.mk m
       | none => li.text).trim
    else st.2.2
  (created, due, reward)

/-- Derive one item record from a fetched detail page (source lines
271–319): title from `<title>` with the site suffix stripped and an
`Issue {id}` fallback, description from the meta tags, and created/due/
reward from the `<li>` scan starting at `(lastmod, "", "")`. -/
def itemFromDetail (ent : SitemapEntry) (page : DetailPage) : Item :=
  let rawTitle := match page.title with
    | some t => t
    | none => ""
  let cutTitle : String := ⟨dropSiteSuffix rawTitle.data⟩
  let eid := ent.id
  let title := if cutTitle = "" then s!"Issue {eid}" else cutTitle
  let description := match page.metaDescription with
    | some d => d
    | none =>
      match page.ogDescription with
      | some d => d
      | none => ""
  let cdr := page.lis.foldl applyLi (ent.lastmod, "", "")
  { id := ent.id, url := ent.url, title := title, description := description,
    labels := [], created := cdr.1, due := cdr.2.1, reward := cdr.2.2 }

/-- The per-item detail-fetch loop of `build_items_from_sitemap` (source
lines 265–322). Each iteration runs `requests.get` inside a `try`/`finally`
whose only clause is the crawl-delay sleep — there is no `except`: a
non-200 response skips the entry via `continue`, while a raised request
exception propagates and aborts the remaining iterations. -/
def detailLoop (fetch : String → FetchOutcome) :
    List SitemapEntry → Except String (List Item)
  | [] => .ok []
  | ent :: rest =>
    match fetch ent.url with
    | .exn msg => .error msg
    | .resp status page =>
      if status ≠ 200 then detailLoop fetch rest
      else
        match detailLoop fetch rest with
        | .error e => .error e
        | .ok items => .ok (itemFromDetail ent page :: items)

/-- Lexicographic code-point comparison of character lists — Python's
string `<=` as the sitemap sort key uses it. -/
def listLe : List Char → List Char → Bool
  | [], _ => true
  | _ :: _, [] => false
  | a :: as, b :: bs => if a < b then true else if b < a then false else listLe as bs

/-- Python's `a <= b` on strings: lexicographic by code point. -/
def strLe (a b : String) : Bool := listLe a.data b.data

/-- Stable insertion into a list kept in descending `lastmod` order:
entries with an equal or larger key stay in front, so with a left fold this
reproduces Python's stable `entries.sort(key=lastmod, reverse=True)`. -/
def insertDesc (e : SitemapEntry) : List SitemapEntry → List SitemapEntry
  | [] => [e]
  | x :: t => if strLe e.lastmod x.lastmod then x :: insertDesc e t else e :: x :: t

/-- `entries.sort(key=lambda e: e.lastmod, reverse=True)` (source lines
260–262) as a stable insertion sort. -/
def sortByLastmodDesc (l : List SitemapEntry) : List SitemapEntry :=
  l.foldl (fun acc e => insertDesc e acc) []

/-- `build_items_from_sitemap` (source lines 252–323). The sitemap fetch
itself (`fetch_issue_urls_from_sitemap`) is represented by its parsed entry
list, and `fetch` gives the outcome of each per-item `requests.get`. -/
def build_items_from_sitemap (fetch : String → FetchOutcome)
    (entries : List SitemapEntry) (max_fetch : Nat) : Except String (List Item) :=
  if entries.isEmpty then .ok []
  else detailLoop fetch ((sortByLastmodDesc entries).take max_fetch)

/-- What one successfully processed entry contributes: its derived record
when its fetch answered 200, nothing otherwise. -/
def detailStep (fetch : String → FetchOutcome) (e : SitemapEntry) : Option Item :=
  match fetch e.url with
  | .resp status page => if status = 200 then some (itemFromDetail e page) else none
  | .exn _ => none

/-- A Slack Block Kit block as `build_slack_blocks` composes it (source
lines 350–400): the header, a plain section, a section with the
"案件を開く" link button, or a divider. -/
inductive Block where
  | header (text : String)
  | sectionText (text : String)
  | sectionButton (text : String) (buttonUrl : String)
  | divider
deriving DecidableEq

/-- The payload dictionary returned by `build_slack_blocks`: the block list
and the fallback `text`. -/
structure SlackPayload where
  blocks : List Block
  text : String
deriving DecidableEq

/-- The per-match display blocks with dividers between consecutive matches
(source lines 370–398); `i` is the 1-based position of the head match. -/
def matchBlocks (total : Nat) : Nat → List MatchResult → List Block
  | _, [] => []
  | i, m :: rest =>
    let t0 := m.item.title.trim
    let iid := m.item.id
    let title := if t0 = "" then s!"Issue {iid}" else t0
    let url := m.item.url
    let created := m.item.created.trim
    let reward := m.item.reward.trim
    let due := m.item.due.trim
    let labels := String.intercalate " / " m.item.labels
    let mk_text := if m.matched_keywords.isEmpty then "-"
      else String.intercalate ", " m.matched_keywords
    let body :=
      "*<" ++ url ++ "|" ++ title ++ ">*\n" ++
      "*作成日*: " ++ (if created = "" then "-" else created) ++
      "    *報酬*: " ++ (if reward = "" then "-" else reward) ++
      "    *締切*: " ++ (if due = "" then "-" else due) ++ "\n" ++
      "*一致キーワード*: \x60" ++ (if mk_text = "" then "-" else mk_text) ++ "\x60" ++
      (if labels = "" then "" else "\n*ラベル*: " ++ labels)
    Block.sectionButton body url ::
      (if i ≠ total then [Block.divider] else []) ++ matchBlocks total (i + 1) rest

/-- `build_slack_blocks` (source lines 350–400). `now` stands for
`datetime.now(ZoneInfo("Asia/Tokyo")).strftime("%Y-%m-%d %H:%M")`, the one
ambient input of this otherwise pure composer. -/
def build_slack_blocks (now : String) (mres : List MatchResult) : SlackPayload :=
  let header_text := "VisasQ 公募ウォッチ（" ++ now ++ " JST）"
  let total := mres.length
  let totalStr := toString total
  let keywords_text := String.intercalate "\x60, \x60" KEYWORDS
  let head := [Block.header header_text,
    Block.sectionText ("*新着一致 " ++ totalStr ++ "件*｜対象URL: <" ++ TARGET_URL ++
      "|公募一覧（募集中のみ）>\n" ++ "キーワード: \x60" ++ keywords_text ++ "\x60")]
  if total = 0 then
    { blocks := head ++ [Block.sectionText "本日は一致なしでした。"],
      text := "VisasQ 公募ウォッチ: 一致なし" }
  else
    { blocks := head ++ matchBlocks total 1 mres,
      text := "VisasQ 公募ウォッチ: 新着一致 " ++ totalStr ++ "件" }

/-- One line written to standard output: an informational message or the
JSON dump of a composed payload (`print(json.dumps(payload, …))`). -/
inductive Out where
  | msg (s : String)
  | payload (p : SlackPayload)
deriving DecidableEq

/-- `post_to_slack` (source lines 403–410), parameterized by the configured
webhook URL and the status code the webhook endpoint answers with: an unset
webhook prints a warning plus the payload to standard output and returns
normally; a configured webhook prints nothing and raises `RuntimeError` on
a status of 300 or more. -/
def post_to_slack (webhook : Option String) (slack_status : Nat)
    (payload : SlackPayload) : Except String (List Out) :=
  match webhook with
  | none =>
    .ok [.msg "[WARN] SLACK_WEBHOOK_URL が未設定のため、標準出力に出します。",
         .payload payload]
  | some _ => if slack_status ≥ 300 then .error "RuntimeError" else .ok []

/-- The environment configuration read once at process start (source lines
29 and 46–48): `FORCE_NOTIFY`, `DRY_RUN` and `SLACK_WEBHOOK_URL`. -/
structure Config where
  force_notify : Bool
  dry_run : Bool
  slack_webhook_url : Option String
deriving DecidableEq

/-- What the external world supplies to one run of `main`: the ledger slice
of the file system, the primary listing's extraction result
(`extract_items(fetch_html(TARGET_URL))`, `.error` when the listing fetch
exhausts its retries and raises), the sitemap fallback's result (as
`build_items_from_sitemap` delivers it, `.error` when one of its detail
fetches raises), the status the Slack webhook answers with, and the
formatted current time. -/
structure World where
  fs : FS
  listing : Except String (List Item)
  sitemap : Except String (List Item)
  slack_status : Nat
  now : String

/-- The observable outcome of one run of `main`: the final ledger slice of
the file system, everything printed to standard output, and the uncaught
exception if the run failed. -/
structure RunResult where
  fs : FS
  out : List Out
  err : Option String
deriving DecidableEq

/-- The `[INFO]` line printed before the sitemap fallback (source line 419). -/
def infoFallbackMsg : Out := .msg "[INFO] 一覧から抽出0件。sitemap経由で取得します…"

/-- The no-match line printed by a run without matches (source line 438). -/
def noMatchMsg : Out := .msg "一致なし：Slack通知はスキップしました。"

/-- The tail of `main` once the item list is in hand (source lines
421–438): mask the seen set under `FORCE_NOTIFY`, match, and on a non-empty
match list deliver (printing instead under `DRY_RUN`) and then — unless
`FORCE_NOTIFY` is set — add the matched ids to the seen set and persist it. -/
def mainAfterItems (cfg : Config) (w : World) (seen : Finset String) (fs1 : FS)
    (out0 : List Out) (items : List Item) : RunResult :=
  let effective_seen : Finset String := if cfg.force_notify then ∅ else seen
  let mres := filter_new_and_match KEYWORDS items effective_seen
  if mres.isEmpty then
    { fs := fs1, out := out0 ++ [noMatchMsg], err := none }
  else
    let payload := build_slack_blocks w.now mres
    match
      (if cfg.dry_run then Except.ok [Out.payload payload]
       else post_to_slack cfg.slack_webhook_url w.slack_status payload) with
    | .error e => { fs := fs1, out := out0, err := some e }
    | .ok outs =>
      if cfg.force_notify then { fs := fs1, out := out0 ++ outs, err := none }
      else
        let seen2 := seen ∪ (mres.map fun m => m.item.id).toFinset
        match save_seen_ids seen2 fs1 with
        | .error e => { fs := fs1, out := out0 ++ outs, err := some e }
        | .ok fs2 => { fs := fs2, out := out0 ++ outs, err := none }

/-- `main` (source lines 413–438): load the ledger, take the primary
listing's items, fall back to the sitemap when the listing yielded none,
then match and notify via `mainAfterItems`. An exception anywhere
propagates with the effects performed so far. -/
def mainRun (cfg : Config) (w : World) : RunResult :=
  match load_seen_ids w.fs with
  | .error e => { fs := w.fs, out := [], err := some e }
  | .ok (seen, fs1) =>
    match w.listing with
    | .error e => { fs := fs1, out := [], err := some e }
    | .ok listed =>
      if listed.isEmpty then
        match w.sitemap with
        | .error e => { fs := fs1, out := [infoFallbackMsg], err := some e }
        | .ok si => mainAfterItems cfg w seen fs1 [infoFallbackMsg] si
      else mainAfterItems cfg w seen fs1 [] listed

/-- A listing item that matches the keywords "SEO" and "新規事業", used by
the concrete run instances. -/
def itemSEO : Item :=
  { id := "555", url := "https://expert.visasq.com/issue/555/",
    title := "SEO支援の新規事業立ち上げ", description := "", labels := [],
    created := "", due := "", reward := "" }

/-- The match list `filter_new_and_match` produces for `[itemSEO]` against
an empty seen set. -/
def mresSEO : List MatchResult := [⟨itemSEO, ["SEO", "新規事業"]⟩]

/-- A listing item that matches no keyword. -/
def itemNoKw : Item :=
  { id := "777", url := "https://expert.visasq.com/issue/777/",
    title := "zzz", description := "", labels := [], created := "", due := "",
    reward := "" }

/-- A world with an existing state directory, no ledger file, and a listing
carrying one matching item. -/
def worldSEO : World :=
  { fs := ⟨true, true, .missing⟩, listing := .ok [itemSEO], sitemap := .ok [],
    slack_status := 200, now := "2025-10-12 09:00" }

/-- A world whose ledger starts with one unrelated persisted id and whose
webhook endpoint answers 500. -/
def worldSlackDown : World :=
  { fs := ⟨true, true, .content ["111"]⟩, listing := .ok [itemSEO],
    sitemap := .ok [], slack_status := 500, now := "2025-10-12 09:00" }

/-- A world with a missing (but creatable) state directory and a listing
carrying only a non-matching item. -/
def worldNoMatch : World :=
  { fs := ⟨false, true, .missing⟩, listing := .ok [itemNoKw], sitemap := .ok [],
    slack_status := 200, now := "2025-10-12 09:00" }

/-- A world whose primary listing extracts nothing (JS-rendered page) and
whose sitemap fallback delivers one matching item. -/
def worldSEOFallback : World :=
  { fs := ⟨true, true, .missing⟩, listing := .ok [], sitemap := .ok [itemSEO],
    slack_status := 200, now := "2025-10-12 09:00" }

/-- A world whose primary listing extracts nothing and whose sitemap
fallback is empty too (sitemap unavailable or without usable entries) —
the ordinary zero-match run. -/
def worldEmptyAll : World :=
  { fs := ⟨true, true, .missing⟩, listing := .ok [], sitemap := .ok [],
    slack_status := 200, now := "2025-10-12 09:00" }

/-- The two ways a run of `main` reaches the matcher with the item list
`items` after having printed `out0` (source lines 415–420): the primary
listing extracted a non-empty list (nothing printed yet), or it extracted
none and the sitemap fallback returned `items` after the `[INFO]` line. -/
def ReachesMatcher (w : World) (out0 : List Out) (items : List Item) : Prop :=
  (w.listing = .ok items ∧ items ≠ [] ∧ out0 = []) ∨
    (w.listing = .ok [] ∧ w.sitemap = .ok items ∧ out0 = [infoFallbackMsg])

/-- The file system left behind by persisting the identifier set `s` on top
of `fs1`. -/
def persistedFS (fs1 : FS) (s : Finset String) : FS :=
  { fs1 with file := FileState.content (s.sort (· ≤ ·)) }

/-- The identifier set persisted by a matching run: the loaded set plus the
ids of the matched items. -/
def updatedSeen (seen : Finset String) (mres : List MatchResult) : Finset String :=
  seen ∪ (mres.map fun m => m.item.id).toFinset

/-- Three sitemap entries with distinct ids and descending `lastmod`. -/
def entA : SitemapEntry := ⟨"1", "https://expert.visasq.com/issue/1/", "2025-09-03"⟩

/-- Second sitemap entry (the one whose fetch is made to fail). -/
def entB : SitemapEntry := ⟨"2", "https://expert.visasq.com/issue/2/", "2025-09-02"⟩

/-- Third sitemap entry. -/
def entC : SitemapEntry := ⟨"3", "https://expert.visasq.com/issue/3/", "2025-09-01"⟩

/-- A minimal successfully parsed detail page. -/
def pageOk : DetailPage :=
  ⟨some "案件タイトル | スポットコンサル[ビザスク]", some "説明文", none, []⟩

/-- A fetch that raises a connect timeout on the second entry and answers
200 everywhere else. -/
def fetchTimeoutB (u : String) : FetchOutcome :=
  if u = entB.url then .exn "ConnectTimeout" else .resp 200 pageOk

/-- A fetch that answers 404 on the second entry and 200 everywhere else. -/
def fetch404B (u : String) : FetchOutcome :=
  if u = entB.url then .resp 404 pageOk else .resp 200 pageOk

theorem charOfNat_toNat {n : Nat} (h : n < 55296) : (Char.ofNat n).toNat = n := by
  have hv : n.isValidChar := Or.inl h
  simp only [Char.ofNat, hv, dite_true, dif_pos]
  simp [Char.ofNatAux, Char.toNat, UInt32.toNat, Nat.mod_eq_of_lt (by omega : n < 4294967296)]

example : normalize_text "ＳＥＯ対策" = "seo対策" := by decide

example : strContains "abc seo対策" "seo" = true := by decide

example : strContains "abc" "xy" = false := by decide

theorem nfkcChar_image (c : Char) :
    ¬(0xFF01 ≤ (nfkcChar c).toNat ∧ (nfkcChar c).toNat ≤ 0xFF5E) ∧
      (nfkcChar c).toNat ≠ 0x3000 := by
  unfold nfkcChar
  split
  · next h =>
    rw [charOfNat_toNat (by omega)]
    omega
  · split
    · rw [charOfNat_toNat (by omega)]
      omega
    · next h1 h2 => exact ⟨h1, h2⟩

theorem lowerChar_fixes (c : Char)
    (hn : ¬(0xFF01 ≤ c.toNat ∧ c.toNat ≤ 0xFF5E) ∧ c.toNat ≠ 0x3000) :
    nfkcChar (lowerChar c) = lowerChar c ∧
      lowerChar (lowerChar c) = lowerChar c := by
  unfold lowerChar
  split
  · next h =>
    have ht : (Char.ofNat (c.toNat + 0x20)).toNat = c.toNat + 0x20 :=
      charOfNat_toNat (by omega)
    constructor
    · unfold nfkcChar
      rw [if_neg (by rw [ht]; omega), if_neg (by rw [ht]; omega)]
    · rw [if_neg (by rw [ht]; omega)]
  · constructor
    · unfold nfkcChar
      rw [if_neg hn.1, if_neg hn.2]
    · rfl

theorem normChar_idem (c : Char) :
    lowerChar (nfkcChar (lowerChar (nfkcChar c))) = lowerChar (nfkcChar c) := by
  obtain ⟨hf, hl⟩ := lowerChar_fixes (nfkcChar c) (nfkcChar_image c)
  rw [hf, hl]

/-- C7: text normalization is idempotent — `normalize_text` applied twice
agrees with a single application, for every input string. -/
theorem normalize_text_idempotent (s : String) :
    normalize_text (normalize_text s) = normalize_text s := by
  have key : ∀ l : List Char,
      (((l.map nfkcChar).map lowerChar).map nfkcChar).map lowerChar
        = (l.map nfkcChar).map lowerChar := by
    intro l
    induction l with
    | nil => rfl
    | cons c t ih =>
      simp only [List.map_cons, List.cons.injEq]
      exact ⟨normChar_idem c, ih⟩
  show (⟨((((s.data.map nfkcChar).map lowerChar).map nfkcChar).map lowerChar : List Char)⟩ : String)
      = ⟨(s.data.map nfkcChar).map lowerChar⟩
  rw [key]

example :
    (filter_new_and_match KEYWORDS
      [{ id := "555", url := "u", title := "SEO支援の新規事業立ち上げ",
         description := "", labels := [], created := "", due := "", reward := "" }]
      ∅).map (fun m => m.matched_keywords) = [["SEO", "新規事業"]] := by decide

example :
    filter_new_and_match KEYWORDS
      [{ id := "555", url := "u", title := "SEO支援の新規事業立ち上げ",
         description := "", labels := [], created := "", due := "", reward := "" }]
      {"555"} = [] := by decide

/-- C3 counterexample: when the state directory is absent and cannot be
created (a permission error on the containing directory), `load_seen_ids`
raises instead of returning an empty ledger — the claim's "never raises"
fails at this concrete file-system state. -/
theorem load_seen_ids_raises_on_mkdir_denied :
    load_seen_ids ⟨false, false, .missing⟩ = .error "PermissionError" := rfl

/-- C3 amended: provided the state directory exists or can be created, the
ledger load never raises, and a missing, unreadable or malformed ledger
file loads as the empty set. -/
theorem load_seen_ids_fail_open (fs : FS)
    (hdir : fs.dirExists = true ∨ fs.dirCreatable = true)
    (hfile : fs.file = .missing ∨ fs.file = .unreadable ∨ fs.file = .malformed) :
    ∃ fs1, load_seen_ids fs = .ok (∅, fs1) ∧ fs1.file = fs.file := by
  obtain ⟨de, dc, f⟩ := fs
  unfold load_seen_ids ensureStateDir
  rcases de with - | -
  · rcases hdir with h | h
    · cases h
    · subst h
      rcases hfile with h | h | h <;> subst h <;> exact ⟨_, rfl, rfl⟩
  · rcases hfile with h | h | h <;> subst h <;> exact ⟨_, rfl, rfl⟩

/-- A closed instance of `load_seen_ids_fail_open` on a malformed file. -/
theorem load_seen_ids_fail_open_witness :
    ((true = true ∨ false = true) ∧
      ((FileState.malformed = .missing ∨ FileState.malformed = .unreadable ∨
        FileState.malformed = .malformed))) ∧
      ∃ fs1, load_seen_ids ⟨true, false, .malformed⟩ = .ok (∅, fs1) ∧
        fs1.file = FileState.malformed :=
  ⟨⟨Or.inl rfl, Or.inr (Or.inr rfl)⟩,
   load_seen_ids_fail_open ⟨true, false, .malformed⟩ (Or.inl rfl)
     (Or.inr (Or.inr rfl))⟩

/-- C8: saving any identifier set and loading it back reproduces exactly
that set, and the persisted representation is the canonical sorted listing
of the set, so equal sets persist identically. Requires only that the state
directory exists or can be created (otherwise `save` itself raises). -/
theorem ledger_round_trip (seen : Finset String) (fs : FS)
    (hdir : fs.dirExists = true ∨ fs.dirCreatable = true) :
    ∃ fs1, save_seen_ids seen fs = .ok fs1 ∧
      fs1.file = .content (seen.sort (· ≤ ·)) ∧
      load_seen_ids fs1 = .ok (seen, fs1) := by
  obtain ⟨de, dc, f⟩ := fs
  have hsort : (seen.sort (· ≤ ·)).toFinset = seen := Finset.sort_toFinset _ _
  rcases de with - | -
  · rcases hdir with h | h
    · cases h
    · subst h
      exact ⟨_, rfl, rfl, by simp [load_seen_ids, ensureStateDir, hsort]⟩
  · exact ⟨_, rfl, rfl, by simp [load_seen_ids, ensureStateDir, hsort]⟩

/-- A closed instance of `ledger_round_trip` on a two-element set. -/
theorem ledger_round_trip_witness :
    (true = true ∨ true = true) ∧
      ∃ fs1, save_seen_ids {"9", "3"} ⟨true, true, .missing⟩ = .ok fs1 ∧
        fs1.file = .content (({"9", "3"} : Finset String).sort (· ≤ ·)) ∧
        load_seen_ids fs1 = .ok ({"9", "3"}, fs1) :=
  ⟨Or.inl rfl, ledger_round_trip {"9", "3"} ⟨true, true, .missing⟩ (Or.inl rfl)⟩

theorem matchItem_eq_some (keywords : List String) (it : Item) (m : MatchResult)
    (h : matchItem keywords it = some m) :
    m.item = it ∧
      m.matched_keywords = keywords.filter fun orig =>
        normalize_text orig ∈
          ((keywords.map normalize_text).filter fun k =>
            strContains (normalize_text (it.title ++ " " ++ it.description)) k).toFinset := by
  simp only [matchItem] at h
  split at h
  · injection h with h
    subst h
    exact ⟨rfl, rfl⟩
  · exact absurd h (by simp)

/-- C5: an item whose id is already in the seen-id set never contributes a
match result, whatever its title, description or the keyword list. -/
theorem seen_item_never_in_output (keywords : List String) (items : List Item)
    (seen_ids : Finset String) (m : MatchResult)
    (hm : m ∈ filter_new_and_match keywords items seen_ids) :
    m.item.id ∉ seen_ids := by
  unfold filter_new_and_match at hm
  rw [List.mem_filterMap] at hm
  obtain ⟨it, _, hit⟩ := hm
  split at hit
  · exact absurd hit (by simp)
  · next hns =>
    obtain ⟨hi, -⟩ := matchItem_eq_some keywords it m hit
    rw [hi]
    exact hns

/-- A closed instance of `seen_item_never_in_output` at a concrete matching
run. -/
theorem seen_item_never_in_output_witness :
    (⟨{ id := "7", url := "u", title := "seo", description := "", labels := [],
        created := "", due := "", reward := "" }, ["SEO"]⟩ : MatchResult) ∈
      filter_new_and_match ["SEO"]
        [{ id := "7", url := "u", title := "seo", description := "", labels := [],
           created := "", due := "", reward := "" }] {"9"} ∧
      ({ id := "7", url := "u", title := "seo", description := "", labels := [],
         created := "", due := "", reward := "" } : Item).id ∉ ({"9"} : Finset String) :=
  ⟨by decide,
   seen_item_never_in_output ["SEO"]
     [{ id := "7", url := "u", title := "seo", description := "", labels := [],
        created := "", due := "", reward := "" }] {"9"}
     ⟨{ id := "7", url := "u", title := "seo", description := "", labels := [],
        created := "", due := "", reward := "" }, ["SEO"]⟩ (by decide)⟩

/-- C6: every output's `matched_keywords` is a duplicate-free sublist of the
canonical keyword list in declaration order, and equals the deterministic
per-item filter of the keyword list by normalized substring containment
(so it depends only on the item and the keyword list, never on a discovery
order). -/
theorem matched_keywords_declaration_order (keywords : List String)
    (items : List Item) (seen_ids : Finset String) (m : MatchResult)
    (hnd : keywords.Nodup)
    (hm : m ∈ filter_new_and_match keywords items seen_ids) :
    m.matched_keywords.Sublist keywords ∧ m.matched_keywords.Nodup ∧
      m.matched_keywords = keywords.filter fun orig =>
        strContains (normalize_text (m.item.title ++ " " ++ m.item.description))
          (normalize_text orig) := by
  unfold filter_new_and_match at hm
  rw [List.mem_filterMap] at hm
  obtain ⟨it, -, hit⟩ := hm
  split at hit
  · exact absurd hit (by simp)
  · obtain ⟨hi, hk⟩ := matchItem_eq_some keywords it m hit
    subst hi
    refine ⟨hk ▸ List.filter_sublist keywords, hk ▸ hnd.filter _, ?_⟩
    rw [hk]
    refine List.filter_congr ?_
    intro orig horig
    have hex : ∃ a ∈ keywords, normalize_text a = normalize_text orig :=
      ⟨orig, horig, rfl⟩
    simp only [List.mem_toFinset, List.mem_filter, List.mem_map]
    simp [hex]

/-- A closed instance of `matched_keywords_declaration_order` at a concrete
matching run. -/
theorem matched_keywords_declaration_order_witness :
    (["SEO", "新規事業"] : List String).Nodup ∧
      ((⟨{ id := "5", url := "u", title := "新規事業のSEO", description := "",
           labels := [], created := "", due := "", reward := "" },
         ["SEO", "新規事業"]⟩ : MatchResult).matched_keywords.Sublist
          ["SEO", "新規事業"] ∧
        (["SEO", "新規事業"] : List String).Nodup ∧
        (["SEO", "新規事業"] : List String) =
          (["SEO", "新規事業"] : List String).filter fun orig =>
            strContains (normalize_text ("新規事業のSEO" ++ " " ++ ""))
              (normalize_text orig)) :=
  ⟨by decide,
   matched_keywords_declaration_order ["SEO", "新規事業"]
     [{ id := "5", url := "u", title := "新規事業のSEO", description := "",
        labels := [], created := "", due := "", reward := "" }] ∅
     ⟨{ id := "5", url := "u", title := "新規事業のSEO", description := "",
        labels := [], created := "", due := "", reward := "" },
      ["SEO", "新規事業"]⟩ (by decide) (by decide)⟩

theorem load_seen_ids_shape {fs : FS} {s : Finset String} {fs1 : FS}
    (h : load_seen_ids fs = .ok (s, fs1)) :
    fs1.file = fs.file ∧ fs1.dirExists = true ∧ fs1.dirCreatable = fs.dirCreatable := by
  obtain ⟨de, dc, f⟩ := fs
  unfold load_seen_ids ensureStateDir at h
  rcases de with - | - <;> rcases dc with - | - <;>
    simp only [Bool.false_eq_true, if_true, if_false, ite_true, ite_false] at h <;>
    cases f <;> simp_all <;> simp [← h]

theorem mainRun_enters_afterItems (cfg : Config) (w : World) (seen : Finset String)
    (fs1 : FS) (out0 : List Out) (items : List Item)
    (hload : load_seen_ids w.fs = .ok (seen, fs1))
    (hpath : ReachesMatcher w out0 items) :
    mainRun cfg w = mainAfterItems cfg w seen fs1 out0 items := by
  rcases hpath with ⟨hl, hne, rfl⟩ | ⟨hl, hs, rfl⟩
  · obtain ⟨a, t, rfl⟩ := List.exists_cons_of_ne_nil hne
    unfold mainRun
    rw [hload, hl]
    rfl
  · unfold mainRun
    rw [hload, hl, hs]
    rfl

/-- C2: when the configured webhook answers a non-success status (≥ 300),
delivery raises, the run fails, and the ledger file keeps exactly the
contents it had when the run started — the newly matched ids are not
persisted. Holds on both entry paths (primary listing or sitemap fallback)
and for either force-notify setting. -/
theorem delivery_failure_preserves_ledger (fn : Bool) (whurl : String) (w : World)
    (seen : Finset String) (fs1 : FS) (out0 : List Out) (items : List Item)
    (hload : load_seen_ids w.fs = .ok (seen, fs1))
    (hpath : ReachesMatcher w out0 items)
    (hfail : 300 ≤ w.slack_status)
    (hm : filter_new_and_match KEYWORDS items (if fn then ∅ else seen) ≠ []) :
    (mainRun ⟨fn, false, some whurl⟩ w).err = some "RuntimeError" ∧
      (mainRun ⟨fn, false, some whurl⟩ w).fs.file = w.fs.file := by
  rw [mainRun_enters_afterItems _ _ _ _ _ _ hload hpath]
  obtain ⟨m, t, hmt⟩ := List.exists_cons_of_ne_nil hm
  obtain ⟨hfile, -, -⟩ := load_seen_ids_shape hload
  simp [mainAfterItems, hmt, post_to_slack, hfail, hfile]

example : filter_new_and_match KEYWORDS [itemSEO] ∅ = mresSEO := by decide

theorem dryRunPersistAux (wh : Option String) (w : World)
    (seen : Finset String) (fs1 : FS) (out0 : List Out) (items : List Item)
    (mres : List MatchResult)
    (hload : load_seen_ids w.fs = .ok (seen, fs1))
    (hpath : ReachesMatcher w out0 items)
    (hm : filter_new_and_match KEYWORDS items seen = mres) (hmne : mres ≠ []) :
    mainRun ⟨false, true, wh⟩ w =
      { fs := persistedFS fs1 (updatedSeen seen mres),
        out := out0 ++ [Out.payload (build_slack_blocks w.now mres)],
        err := none } := by
  rw [mainRun_enters_afterItems _ _ _ _ _ _ hload hpath]
  obtain ⟨m, t, hmt⟩ := List.exists_cons_of_ne_nil hmne
  obtain ⟨-, hdir, -⟩ := load_seen_ids_shape hload
  subst hmt
  simp [mainAfterItems, hm, save_seen_ids, ensureStateDir, hdir, persistedFS,
    updatedSeen]

/-- C1 amended: a dry-mode run with matches — whichever entry path (primary
listing or sitemap fallback) produced the items — prints the composed
document to standard output, but — with force-notify off, as in every
normal run — it still adds the newly matched ids to the seen set and
rewrites the ledger file with the sorted union; only the delivery is
skipped. -/
theorem dry_run_prints_and_persists (wh : Option String) (w : World)
    (seen : Finset String) (fs1 : FS) (out0 : List Out) (items : List Item)
    (mres : List MatchResult)
    (hload : load_seen_ids w.fs = .ok (seen, fs1))
    (hpath : ReachesMatcher w out0 items)
    (hm : filter_new_and_match KEYWORDS items seen = mres) (hmne : mres ≠ []) :
    mainRun ⟨false, true, wh⟩ w =
      { fs := persistedFS fs1 (updatedSeen seen mres),
        out := out0 ++ [Out.payload (build_slack_blocks w.now mres)],
        err := none } :=
  dryRunPersistAux wh w seen fs1 out0 items mres hload hpath hm hmne

/-- C1 counterexample: a concrete dry-mode run with one match rewrites the
ledger file — the persisted ledger is not left unmodified as the claim
states. -/
theorem dry_run_modifies_ledger_counterexample :
    (mainRun ⟨false, true, none⟩ worldSEO).fs.file ≠ worldSEO.fs.file := by
  rw [dryRunPersistAux none worldSEO ∅ ⟨true, true, .missing⟩ [] [itemSEO] mresSEO
    rfl (Or.inl ⟨rfl, by decide, rfl⟩) (by decide) (by decide)]
  simp [persistedFS, worldSEO]

/-- A closed instance of `dry_run_prints_and_persists` on the sitemap
fallback path at `worldSEOFallback`. -/
theorem dry_run_prints_and_persists_witness :
    (load_seen_ids worldSEOFallback.fs = .ok (∅, ⟨true, true, .missing⟩) ∧
      ReachesMatcher worldSEOFallback [infoFallbackMsg] [itemSEO] ∧
      filter_new_and_match KEYWORDS [itemSEO] ∅ = mresSEO ∧ mresSEO ≠ []) ∧
    mainRun ⟨false, true, none⟩ worldSEOFallback =
      { fs := persistedFS ⟨true, true, .missing⟩ (updatedSeen ∅ mresSEO),
        out := [infoFallbackMsg] ++
          [Out.payload (build_slack_blocks worldSEOFallback.now mresSEO)],
        err := none } :=
  ⟨⟨rfl, Or.inr ⟨rfl, rfl, rfl⟩, by decide, by decide⟩,
   dry_run_prints_and_persists none worldSEOFallback ∅ ⟨true, true, .missing⟩
     [infoFallbackMsg] [itemSEO] mresSEO rfl (Or.inr ⟨rfl, rfl, rfl⟩)
     (by decide) (by decide)⟩

/-- A closed instance of `delivery_failure_preserves_ledger` at
`worldSlackDown`, with force-notify on. -/
theorem delivery_failure_preserves_ledger_witness :
    (load_seen_ids worldSlackDown.fs =
        .ok (["111"].toFinset, ⟨true, true, .content ["111"]⟩) ∧
      ReachesMatcher worldSlackDown [] [itemSEO] ∧
      300 ≤ worldSlackDown.slack_status ∧
      filter_new_and_match KEYWORDS [itemSEO]
        (if true then ∅ else ["111"].toFinset) ≠ []) ∧
    (mainRun ⟨true, false, some "https://hooks.example/w"⟩ worldSlackDown).err =
        some "RuntimeError" ∧
      (mainRun ⟨true, false, some "https://hooks.example/w"⟩ worldSlackDown).fs.file =
        worldSlackDown.fs.file :=
  ⟨⟨rfl, Or.inl ⟨rfl, by decide, rfl⟩, by decide, by decide⟩,
   delivery_failure_preserves_ledger true "https://hooks.example/w" worldSlackDown
     (["111"].toFinset) ⟨true, true, .content ["111"]⟩ [] [itemSEO]
     rfl (Or.inl ⟨rfl, by decide, rfl⟩) (by decide) (by decide)⟩

/-- C9 amended: a run whose match list is empty prints the no-match message
after whatever the entry path printed, raises nothing, and leaves the
ledger file exactly as it was — but the state directory is still created
at ledger-load time when it is missing. Holds on both entry paths. -/
theorem no_match_run_leaves_ledger_file (cfg : Config) (w : World)
    (seen : Finset String) (fs1 : FS) (out0 : List Out) (items : List Item)
    (hload : load_seen_ids w.fs = .ok (seen, fs1))
    (hpath : ReachesMatcher w out0 items)
    (hm : filter_new_and_match KEYWORDS items
      (if cfg.force_notify then ∅ else seen) = []) :
    mainRun cfg w = { fs := fs1, out := out0 ++ [noMatchMsg], err := none } ∧
      fs1.file = w.fs.file := by
  obtain ⟨hfile, -, -⟩ := load_seen_ids_shape hload
  rw [mainRun_enters_afterItems _ _ _ _ _ _ hload hpath]
  exact ⟨by simp [mainAfterItems, hm], hfile⟩

/-- C9 counterexample: a concrete run with zero matches whose state
directory is missing at start prints the no-match message and writes no
ledger file, yet it does create the state directory — durable state is
changed, contrary to the claim's parenthetical. -/
theorem no_match_run_creates_state_dir_counterexample :
    (mainRun ⟨false, false, none⟩ worldNoMatch).out = [noMatchMsg] ∧
      (mainRun ⟨false, false, none⟩ worldNoMatch).err = none ∧
      worldNoMatch.fs.dirExists = false ∧
      (mainRun ⟨false, false, none⟩ worldNoMatch).fs.dirExists = true := by
  decide

/-- A closed instance of `no_match_run_leaves_ledger_file` on the ordinary
zero-match run: empty primary listing and an empty sitemap fallback. -/
theorem no_match_run_leaves_ledger_file_witness :
    (load_seen_ids worldEmptyAll.fs = .ok (∅, ⟨true, true, .missing⟩) ∧
      ReachesMatcher worldEmptyAll [infoFallbackMsg] [] ∧
      filter_new_and_match KEYWORDS []
        (if (⟨false, false, none⟩ : Config).force_notify then ∅ else ∅) = []) ∧
    mainRun ⟨false, false, none⟩ worldEmptyAll =
        { fs := ⟨true, true, .missing⟩, out := [infoFallbackMsg] ++ [noMatchMsg],
          err := none } ∧
      (⟨true, true, FileState.missing⟩ : FS).file = worldEmptyAll.fs.file :=
  ⟨⟨rfl, Or.inr ⟨rfl, rfl, rfl⟩, by decide⟩,
   no_match_run_leaves_ledger_file ⟨false, false, none⟩ worldEmptyAll ∅
     ⟨true, true, .missing⟩ [infoFallbackMsg] [] rfl (Or.inr ⟨rfl, rfl, rfl⟩)
     (by decide)⟩

/-- C10: with the webhook unconfigured, dry mode off and force-notify off, a
matching run — whichever entry path produced the items — prints the warning
and the composed document to standard output, finishes without an exception
(treated as a successful delivery), and persists the union of the loaded
set and the matched ids — so every matched item's id is in the persisted
set and will not be notified again. -/
theorem unconfigured_webhook_prints_and_persists (w : World)
    (seen : Finset String) (fs1 : FS) (out0 : List Out) (items : List Item)
    (mres : List MatchResult)
    (hload : load_seen_ids w.fs = .ok (seen, fs1))
    (hpath : ReachesMatcher w out0 items)
    (hm : filter_new_and_match KEYWORDS items seen = mres) (hmne : mres ≠ []) :
    mainRun ⟨false, false, none⟩ w =
      { fs := persistedFS fs1 (updatedSeen seen mres),
        out := out0 ++
          [.msg "[WARN] SLACK_WEBHOOK_URL が未設定のため、標準出力に出します。",
           Out.payload (build_slack_blocks w.now mres)],
        err := none } ∧
      ∀ m ∈ mres, m.item.id ∈ updatedSeen seen mres := by
  obtain ⟨-, hdir, -⟩ := load_seen_ids_shape hload
  constructor
  · rw [mainRun_enters_afterItems _ _ _ _ _ _ hload hpath]
    obtain ⟨m, t, hmt⟩ := List.exists_cons_of_ne_nil hmne
    subst hmt
    simp [mainAfterItems, hm, post_to_slack, save_seen_ids, ensureStateDir, hdir,
      persistedFS, updatedSeen]
  · intro m hmem
    exact Finset.mem_union_right _ (List.mem_toFinset.mpr
      (List.mem_map.mpr ⟨m, hmem, rfl⟩))

/-- A closed instance of `unconfigured_webhook_prints_and_persists` on the
sitemap fallback path at `worldSEOFallback`. -/
theorem unconfigured_webhook_prints_and_persists_witness :
    (load_seen_ids worldSEOFallback.fs = .ok (∅, ⟨true, true, .missing⟩) ∧
      ReachesMatcher worldSEOFallback [infoFallbackMsg] [itemSEO] ∧
      filter_new_and_match KEYWORDS [itemSEO] ∅ = mresSEO ∧ mresSEO ≠ []) ∧
    (mainRun ⟨false, false, none⟩ worldSEOFallback =
      { fs := persistedFS ⟨true, true, .missing⟩ (updatedSeen ∅ mresSEO),
        out := [infoFallbackMsg] ++
          [.msg "[WARN] SLACK_WEBHOOK_URL が未設定のため、標準出力に出します。",
           Out.payload (build_slack_blocks worldSEOFallback.now mresSEO)],
        err := none } ∧
      ∀ m ∈ mresSEO, m.item.id ∈ updatedSeen ∅ mresSEO) :=
  ⟨⟨rfl, Or.inr ⟨rfl, rfl, rfl⟩, by decide, by decide⟩,
   unconfigured_webhook_prints_and_persists worldSEOFallback ∅
     ⟨true, true, .missing⟩ [infoFallbackMsg] [itemSEO] mresSEO rfl
     (Or.inr ⟨rfl, rfl, rfl⟩) (by decide) (by decide)⟩

/-- C4 counterexample: a fetch-level error (timeout) on the second of three
entries aborts the whole batch — the loop raises instead of continuing, and
the third entry is missing from the result even though its own fetch would
have answered 200. -/
theorem sitemap_exception_aborts_batch_counterexample :
    build_items_from_sitemap fetchTimeoutB [entA, entB, entC] 30 =
        .error "ConnectTimeout" ∧
      (fetchTimeoutB entC.url).isExn = false := by
  decide

theorem detailLoop_no_exn (fetch : String → FetchOutcome) (l : List SitemapEntry)
    (h : ∀ e ∈ l, (fetch e.url).isExn = false) :
    detailLoop fetch l = .ok (l.filterMap (detailStep fetch)) := by
  induction l with
  | nil => rfl
  | cons e t ih =>
    have he := h e (List.mem_cons_self e t)
    have ht := fun x hx => h x (List.mem_cons_of_mem e hx)
    cases hf : fetch e.url with
    | exn msg => rw [hf] at he; simp [FetchOutcome.isExn] at he
    | resp status page =>
      have hstep : detailStep fetch e =
          if status = 200 then some (itemFromDetail e page) else none := by
        rw [detailStep, hf]
      rw [detailLoop, hf, List.filterMap_cons]
      by_cases h200 : status = 200
      · subst h200
        simp [hstep, ih ht]
      · simp [hstep, h200, ih ht]

/-- C4 amended: when no selected per-item fetch raises, a non-success
response only omits that one entry — the loop returns normally with exactly
the records of the selected entries that answered 200, in order, and the
batch is never aborted. A raised fetch exception, however, aborts it (see
the counterexample). -/
theorem sitemap_loop_skips_failed_items (fetch : String → FetchOutcome)
    (entries : List SitemapEntry) (max_fetch : Nat)
    (h : ∀ e ∈ (sortByLastmodDesc entries).take max_fetch,
      (fetch e.url).isExn = false) :
    build_items_from_sitemap fetch entries max_fetch =
      .ok (((sortByLastmodDesc entries).take max_fetch).filterMap
        (detailStep fetch)) := by
  unfold build_items_from_sitemap
  split
  · next he =>
    obtain rfl : entries = [] := by
      cases entries with
      | nil => rfl
      | cons a t => simp at he
    simp [sortByLastmodDesc, detailLoop]
  · exact detailLoop_no_exn fetch _ h

example :
    build_items_from_sitemap fetch404B [entA, entB, entC] 30 =
      .ok [itemFromDetail entA pageOk, itemFromDetail entC pageOk] := by decide

/-- A closed instance of `sitemap_loop_skips_failed_items` with a 404 on the
second of three entries. -/
theorem sitemap_loop_skips_failed_items_witness :
    (∀ e ∈ (sortByLastmodDesc [entA, entB, entC]).take 30,
      (fetch404B e.url).isExn = false) ∧
    build_items_from_sitemap fetch404B [entA, entB, entC] 30 =
      .ok (((sortByLastmodDesc [entA, entB, entC]).take 30).filterMap
        (detailStep fetch404B)) :=
  ⟨by decide,
   sitemap_loop_skips_failed_items fetch404B [entA, entB, entC] 30 (by decide)⟩
